import Mathlib

/-!
Shallow embedding of the WhatsApp command-dispatch core
(api/whatsapp_api_handle.py): identity resolution, message
normalization, validation, tokenization with privilege escalation,
plugin registry loading, dispatch, the natural-language fallback
resolver cycle, and conversation-history retrieval.

Python strings are modelled as Lean String (whose data is List Char),
machine side effects (outbound sends, persisted history rows) as an
explicit World record threaded through the functions, and Python
exceptions as Except PyError.
-/

/-- The ASCII whitespace characters recognized by the Python str.split
and str.strip defaults (unicode whitespace beyond these is not used by
any input the dispatch core handles). -/
def isPyWS (c : Char) : Bool :=
  c = ' ' ∨ c = '\t' ∨ c = '\n' ∨ c = '\r' ∨ c = '\x0b' ∨ c = '\x0c'

/-- Python str.strip(): drop leading and trailing whitespace. -/
def pyStrip (s : String) : String :=
  String.mk (((s.toList.dropWhile isPyWS).reverse.dropWhile isPyWS).reverse)

/-- Worker for pySplit: accumulates the current word (reversed) while
scanning the character list. -/
def pySplitGo (cur : List Char) : List Char → List (List Char)
  | [] => if cur = [] then [] else [cur.reverse]
  | c :: rest =>
    if isPyWS c then
      if cur = [] then pySplitGo [] rest else cur.reverse :: pySplitGo [] rest
    else
      pySplitGo (c :: cur) rest

/-- Python str.split() with no separator: split on runs of whitespace,
discarding empty pieces. -/
def pySplit (s : String) : List String :=
  (pySplitGo [] s.toList).map String.mk

/-- Python s.replace(nbsp, space): the separator is a single character,
so the substring replacement coincides with a character map. -/
def pyReplaceNbsp (s : String) : String :=
  String.mk (s.toList.map (fun c => if c = '\u00A0' then ' ' else c))

/-- Python str.startswith. -/
def pyStartsWith (s pre : String) : Bool :=
  pre.toList.isPrefixOf s.toList

/-- Python str.endswith. -/
def pyEndsWith (s suf : String) : Bool :=
  suf.toList.isSuffixOf s.toList

/-- Python str.lstrip("."): drop every leading dot. -/
def pyLstripDots (s : String) : String :=
  String.mk (s.toList.dropWhile (fun c => c = '.'))

/-- Worker for splitIn: splits a character list at every occurrence of
the four-character separator " in ", leftmost first, non-overlapping,
exactly like Python str.split(" in "). -/
def splitInGo (cur : List Char) : List Char → List (List Char)
  | ' ' :: 'i' :: 'n' :: ' ' :: rest => cur.reverse :: splitInGo [] rest
  | c :: rest => splitInGo (c :: cur) rest
  | [] => [cur.reverse]

/-- Python string.split(" in "). -/
def splitIn (s : String) : List String :=
  (splitInGo [] s.toList).map String.mk

/-- Python re.sub applied in Message.__init__ to derive the short id:
the pattern anchors at the start, captures the maximal leading digit
run, and requires a colon or at-sign somewhere in the remainder; on a
match the whole id is replaced by the captured digit run, otherwise the
id is returned unchanged. (Ids are address tokens and contain no
newline, so the dot wildcard is unrestricted here.) -/
def shortId (id : String) : String :=
  let digits := id.toList.takeWhile Char.isDigit
  let rest := id.toList.dropWhile Char.isDigit
  if digits ≠ [] ∧ (rest.contains ':' ∨ rest.contains '@') then
    String.mk digits
  else id

/-- Python truthiness of an Optional[str] field: present and non-empty. -/
def optTruthy : Option String → Bool
  | none => false
  | some s => s ≠ ""

/-- Python truthiness of the Optional[List] arguments field: present and
non-empty. -/
def pyTruthyArgs : Option (List String) → Bool
  | none => false
  | some l => l ≠ []

/-- The Python exceptions the dispatch core can raise, each carrying the
message string built at the raise site. -/
inductive PyError where
  | senderInBlackList (msg : String)
  | senderNotAdmin (msg : String)
  | emptyMessageInGroup (msg : String)
  | commandNotFound (msg : String)
  | messageNotValid (msg : String)
  | permissionError (msg : String)
  | valueError
  | indexError
  | typeError
  | nameError
deriving DecidableEq, Repr

instance {ε α : Type} [DecidableEq ε] [DecidableEq α] : DecidableEq (Except ε α) := fun a b =>
  match a, b with
  | .ok x, .ok y =>
    if h : x = y then isTrue (by rw [h]) else isFalse (by intro hc; cases hc; exact h rfl)
  | .error x, .error y =>
    if h : x = y then isTrue (by rw [h]) else isFalse (by intro hc; cases hc; exact h rfl)
  | .ok _, .error _ => isFalse (by intro hc; cases hc)
  | .error _, .ok _ => isFalse (by intro hc; cases hc)

/-- The slice of appSettings the dispatch core reads: the admin marker
token, the admin allow-set, and the blacklist. -/
structure AppSettings where
  admin_command_prefix : String
  admin_ids : List String
  blacklist_ids : List String
deriving DecidableEq, Repr

/-- A media payload in the inbound event: caption, mime type, and the
local media path, as read by set_incoming_text_message and set_media. -/
structure MediaPayload where
  caption : String
  mime_type : String
  media_path : String
deriving DecidableEq, Repr

/-- The inbound webhook event fields the Message constructor reads. -/
structure InboundData where
  from_ : String
  text : Option String
  image : Option MediaPayload
  video : Option MediaPayload
  audio : Option MediaPayload
  file : Option MediaPayload
  sticker : Option MediaPayload
deriving DecidableEq, Repr

/-- The mutable Message object built by Message.__init__ and threaded
through the pipeline, restricted to the fields the dispatch core reads
or writes. -/
structure MessageState where
  senderId : String
  groupId : Option String
  sender : String
  group : Option String
  command_prefix : String
  arguments : Option (List String)
  admin_privilege : Bool
  incoming_text_message : String
  outgoing_text_message : String
  send_to : List String
  media_type : Option String
  media_mime_type : Option String
  media_path : Option String
deriving DecidableEq, Repr

/-- The metadata record of one loaded plugin module (the handle_function,
preprocess hook, and help schema are external plugin code, out of the
dispatch core per the scope of the spec; dispatch marks their invocation
without executing them). -/
structure PluginInfo where
  command_name : String
  admin_privilege : Bool
  description : String
  internal : Bool
deriving DecidableEq, Repr

/-- One row of the GPTResponse conversation-history table. -/
structure GPTRecord where
  message : String
  response : String
  group : Option String
  sender : String
  date : Nat
deriving DecidableEq, Repr

/-- The parsed structured payload returned by the language model:
optional console directive and optional chat reply. -/
structure GPTResponsePayload where
  console : Option String
  chat : Option String
deriving DecidableEq, Repr

/-- One persisted history row as written by save_response: the inbound
text, the response payload with the system field set to what was sent,
and the conversation key. -/
structure SavedResponse where
  message : String
  console : Option String
  chat : Option String
  system : String
  group : Option String
  sender : String
deriving DecidableEq, Repr

/-- The observable external effects of one request cycle: outbound send
requests (phone, message-body) in order, and history rows appended by
save_response. -/
structure World where
  sends : List (String × String)
  saved : List SavedResponse
deriving DecidableEq, Repr

/-- How command_handle terminated when it did not raise: it sent the
help catalog, it handed the message to the named registered handler, or
it fell through the tier-mismatch arm and did nothing. -/
inductive DispatchResult where
  | sentHelp
  | invoked (name : String)
  | noOp
deriving DecidableEq, Repr

/-- Message.get_group_and_sender_id: split the raw address on " in ";
with no separator the whole string is the sender; with one separator the
right side is the group only when it carries the group suffix, otherwise
the right side becomes the sender and there is no group; with more than
one separator the two-name unpacking of the split list raises ValueError. -/
def get_group_and_sender_id (s : String) : Except PyError (String × Option String) :=
  match splitIn s with
  | [_] => .ok (s, none)
  | [sender, group] =>
    if pyEndsWith group "@g.us" then .ok (sender, some group)
    else .ok (group, none)
  | _ => .error .valueError

/-- Message.set_incoming_text_message: the first present media kind, in
source order image, video, audio, file, sticker, supplies the caption as
the incoming text and fixes media_type; otherwise a truthy message.text
supplies the text; otherwise the text stays empty. Returns the pair
(incoming_text_message, media_type). -/
def set_incoming_text_message (data : InboundData) : String × Option String :=
  match data.image with
  | some p => (pyReplaceNbsp p.caption, some "image")
  | none =>
  match data.video with
  | some p => (pyReplaceNbsp p.caption, some "video")
  | none =>
  match data.audio with
  | some p => (pyReplaceNbsp p.caption, some "audio")
  | none =>
  match data.file with
  | some p => (pyReplaceNbsp p.caption, some "file")
  | none =>
  match data.sticker with
  | some p => (pyReplaceNbsp p.caption, some "sticker")
  | none =>
  match data.text with
  | some t => if t ≠ "" then (pyReplaceNbsp t, none) else ("", none)
  | none => ("", none)

/-- The media payload of the inbound event for a given media_type tag. -/
def mediaField (data : InboundData) : String → Option MediaPayload
  | "image" => data.image
  | "video" => data.video
  | "audio" => data.audio
  | "file" => data.file
  | "sticker" => data.sticker
  | _ => none

/-- Message.validate, checks in source order: empty text in a group,
then blacklist membership of a non-admin, then debug-mode lockout of a
non-admin. -/
def validate (st : AppSettings) (debug : Bool) (m : MessageState) : Except PyError Unit :=
  if m.incoming_text_message = "" ∧ optTruthy m.group then
    .error (PyError.emptyMessageInGroup "Message is empty in group.")
  else if m.sender ∉ st.admin_ids ∧ m.sender ∈ st.blacklist_ids then
    .error (PyError.senderInBlackList "Sender is in blacklist.")
  else if m.sender ∉ st.admin_ids ∧ debug then
    .error (PyError.permissionError "Debug mode is enabled.")
  else .ok ()

/-- Message.set_media: re-read the caption and record mime type and
media path from the media payload named by media_type (which names a
present field whenever the constructor calls this). -/
def set_media (data : InboundData) (mt : String) (m : MessageState) : MessageState :=
  match mediaField data mt with
  | some p =>
    { m with incoming_text_message := pyReplaceNbsp p.caption,
             media_mime_type := some p.mime_type,
             media_path := some p.media_path }
  | none => m

/-- Message.__init__: resolve identities, derive short ids and the
command marker, seed the single-destination send list, extract the
incoming text, validate, and load media details when a media kind was
present. The best-effort timezone lookup is external file and phone
lookup glue never read by dispatch and is not modelled. -/
def mk_message (st : AppSettings) (debug : Bool) (data : InboundData) : Except PyError MessageState :=
  match get_group_and_sender_id data.from_ with
  | .error e => .error e
  | .ok ids =>
    let senderId := ids.1
    let groupId := ids.2
    let sender := shortId senderId
    let group := groupId.map shortId
    let tm := set_incoming_text_message data
    let m : MessageState :=
      { senderId := senderId, groupId := groupId, sender := sender, group := group,
        command_prefix := if optTruthy group then "./" else "/",
        arguments := none, admin_privilege := false,
        incoming_text_message := tm.1, outgoing_text_message := "",
        send_to := [match groupId with | none => senderId | some g => g],
        media_type := tm.2, media_mime_type := none, media_path := none }
    match validate st debug m with
    | .error e => .error e
    | .ok _ =>
      match tm.2 with
      | some mt => .ok (set_media data mt m)
      | none => .ok m

/-- The anchored regex match in process_incoming_text_message: the text
starts with a dot whose following character exists and is not a dot. -/
def dotStructureMatch (t : String) : Bool :=
  match t.toList with
  | '.' :: c :: _ => c ≠ '.'
  | _ => false

/-- Message.process_incoming_text_message: in a group the text must
match the dot pattern and is dot-stripped; if the (possibly stripped)
text starts with the slash marker, it is marker-stripped and split into
whitespace tokens (reading token zero of an empty token list raises
IndexError); when token zero equals the admin marker and the sender is
an admin, privilege is escalated, the marker token dropped, and an
emptied token list replaced by the synthetic help token. -/
def process_incoming_text_message (st : AppSettings) (m : MessageState) : Except PyError MessageState := do
  let m ←
    if optTruthy m.group then
      if dotStructureMatch m.incoming_text_message then
        pure { m with incoming_text_message := pyStrip (pyLstripDots m.incoming_text_message) }
      else
        throw (PyError.messageNotValid "Message does not start with a dot.")
    else
      pure m
  if pyStartsWith m.incoming_text_message "/" then
    let stripped := pyStrip (String.mk (m.incoming_text_message.toList.drop 1))
    let args := pySplit stripped
    let m := { m with incoming_text_message := stripped, arguments := some args }
    match args with
    | [] => throw PyError.indexError
    | a0 :: rest =>
      if AppSettings.admin_command_prefix st = a0 ∧ m.sender ∈ st.admin_ids then
        pure { m with admin_privilege := true,
                      arguments := some (if rest = [] then ["help"] else rest) }
      else
        pure m
  else
    pure m

example :
    mk_message ⟨"abd", ["1"], []⟩ false
      { from_ := "123:45@s.whatsapp.net in 99@g.us", text := some "./hi",
        image := none, video := none, audio := none, file := none, sticker := none }
      = .ok { senderId := "123:45@s.whatsapp.net", groupId := some "99@g.us",
              sender := "123", group := some "99",
              command_prefix := "./", arguments := none, admin_privilege := false,
              incoming_text_message := "./hi", outgoing_text_message := "",
              send_to := ["99@g.us"], media_type := none,
              media_mime_type := none, media_path := none } := by decide

/-- The plugins dictionary: insertion-ordered key-value pairs, keyed by
command name alone, exactly as the Python dict built by load_plugins. -/
abbrev PluginDict := List (String × PluginInfo)

/-- Python dict assignment d[k] = v: replace in place when the key is
present, else append at the end. -/
def dictInsert (d : PluginDict) (k : String) (v : PluginInfo) : PluginDict :=
  if d.any (fun kv => kv.1 == k) then
    d.map (fun kv => if kv.1 == k then (k, v) else kv)
  else d ++ [(k, v)]

/-- Python dict lookup by command name. -/
def lookupDict (d : PluginDict) (k : String) : Option PluginInfo :=
  (d.find? (fun kv => kv.1 == k)).map Prod.snd

/-- Plugin.load_plugins restricted to its registry-building fold: each
module in directory order is stored into the dict under its declared
command_name with a plain assignment. -/
def load_plugins (modules : List PluginInfo) : PluginDict :=
  modules.foldl (fun acc p => dictInsert acc p.command_name p) []

/-- The last module in load order declaring the given command name, if
any; states what a name resolves to when assignments overwrite. -/
def lastWith (modules : List PluginInfo) (k : String) : Option PluginInfo :=
  modules.foldl (fun acc p => if p.command_name == k then some p else acc) none

/-- The fully qualified invocation path used in help renderings for a
given plugin tier: the message marker, then the admin marker and a space
on the admin tier, then the trailing part. -/
def pretextFor (st : AppSettings) (m : MessageState) (adminTier : Bool) (tail : String) : String :=
  MessageState.command_prefix m ++
    (if adminTier then AppSettings.admin_command_prefix st ++ " " else "") ++ tail

/-- API.get_help: number and list the visible plugins of the requester
tier, then close with a help line whose marker reuses the loop variable
left over from the iteration (the last plugin in registry order), which
raises NameError when the registry is empty. -/
def get_help (st : AppSettings) (plugins : PluginDict) (m : MessageState) : Except PyError String :=
  let vals := plugins.map Prod.snd
  let folded := vals.foldl
    (fun (acc : String × Nat) p =>
      if p.admin_privilege = m.admin_privilege ∧ p.internal = false then
        (acc.1 ++ "*" ++ toString acc.2 ++ ". " ++ p.description ++ "*\n`" ++
          pretextFor st m p.admin_privilege p.command_name ++ "`\n\n", acc.2 + 1)
      else acc)
    ("*Available commands:*\n\n", 1)
  match vals.getLast? with
  | none => .error PyError.nameError
  | some lastPlugin =>
    .ok (folded.1 ++ "*" ++ toString folded.2 ++ ". Show this message*\n`" ++
      pretextFor st m lastPlugin.admin_privilege "help" ++ "`\n")

/-- Message.send_message: one HTTP send request per destination in
send_to, with the stripped outgoing text as body. -/
def send_message (m : MessageState) (w : World) : World :=
  { w with sends := w.sends ++ m.send_to.map (fun phone => (phone, pyStrip m.outgoing_text_message)) }

/-- The CommandNotFound message text built in API.command_handle. -/
def commandNotFoundMsg (st : AppSettings) (m : MessageState) (a0 : String) : String :=
  "Command `" ++ a0 ++ "` not found. Write `" ++ MessageState.command_prefix m ++
    "help` (or `" ++ MessageState.command_prefix m ++ AppSettings.admin_command_prefix st ++
    " help` if you are an admin) to see available commands."

/-- API.command_handle: raise SenderNotAdmin when token zero is the
admin marker without escalation; send the catalog for the synthetic help
forms; hand over to a registered handler only when its tier equals the
message tier, silently falling through on a tier mismatch; raise
CommandNotFound when the name is unregistered. Reading token zero of an
absent or empty token list raises the corresponding Python error. -/
def command_handle (st : AppSettings) (plugins : PluginDict) (m : MessageState) (w : World) :
    Except PyError (MessageState × DispatchResult) × World :=
  match m.arguments with
  | none => (.error PyError.typeError, w)
  | some [] => (.error PyError.indexError, w)
  | some (a0 :: rest) =>
    if a0 = AppSettings.admin_command_prefix st ∧ m.admin_privilege = false then
      (.error (PyError.senderNotAdmin "You are not an admin and cannot use admin commands."), w)
    else if a0 :: rest = [""] ∨ a0 = "help" then
      match get_help st plugins m with
      | .error e => (.error e, w)
      | .ok h =>
        let m2 := { m with outgoing_text_message := h }
        (.ok (m2, DispatchResult.sentHelp), send_message m2 w)
    else
      match lookupDict plugins a0 with
      | some p =>
        if p.admin_privilege = m.admin_privilege then
          (.ok (m, DispatchResult.invoked a0), w)
        else
          (.ok (m, DispatchResult.noOp), w)
      | none => (.error (PyError.commandNotFound (commandNotFoundMsg st m a0)), w)

/-- API.resolve_console: rewrite the console directive onto the message
own marker convention before re-tokenization. -/
def resolve_console (m : MessageState) (c : String) : MessageState :=
  let c2 :=
    if pyStartsWith c "/" then MessageState.command_prefix m ++ String.mk (c.toList.drop 1)
    else if pyStartsWith c "./" then MessageState.command_prefix m ++ String.mk (c.toList.drop 2)
    else MessageState.command_prefix m ++ c
  { m with incoming_text_message := c2 }

/-- API.save_response: append one history row carrying the inbound text,
the response payload with its system field set to the outgoing text, and
the conversation key. -/
def save_response (resp : GPTResponsePayload) (m : MessageState) (w : World) : World :=
  { w with saved := w.saved ++
      [{ message := m.incoming_text_message, console := resp.console, chat := resp.chat,
         system := m.outgoing_text_message, group := m.group, sender := m.sender }] }

/-- API.message_handle: given the parsed model payload, a truthy console
directive is normalized onto the message marker, re-tokenized and
re-dispatched (any exception of that re-dispatch propagates here); a
truthy chat reply is sent after appending an attachment note when the
message carried media; finally the cycle is persisted. -/
def message_handle (st : AppSettings) (plugins : PluginDict) (resp : GPTResponsePayload)
    (m : MessageState) (w : World) : Except PyError MessageState × World :=
  let step1 : Except PyError (MessageState × World) :=
    if optTruthy resp.console then
      let c := resp.console.getD ""
      let m1 :=
        if pyStartsWith c (MessageState.command_prefix m) then
          { m with incoming_text_message := c }
        else resolve_console m c
      match process_incoming_text_message st m1 with
      | .error e => .error e
      | .ok m2 =>
        match command_handle st plugins m2 w with
        | (.error e, _) => .error e
        | (.ok (m3, _), w2) => .ok (m3, w2)
    else .ok (m, w)
  match step1 with
  | .error e => (.error e, w)
  | .ok (m4, w4) =>
    let step2 : MessageState × World :=
      if optTruthy resp.chat then
        let m5 := { m4 with
          incoming_text_message := m4.incoming_text_message ++
            (match m4.media_path with
             | some p => if p ≠ "" then "\nAttachment: " ++ p else ""
             | none => ""),
          outgoing_text_message := resp.chat.getD "" }
        (m5, send_message m5 w4)
      else (m4, w4)
    (.ok step2.1, save_response resp step2.1 step2.2)

/-- API.start_prosess after the preprocess hooks and user registration
glue (external plugin code and persistence outside the dispatch core):
tokenize, then dispatch truthy arguments through command_handle or fall
back to message_handle, converting CommandNotFound and SenderNotAdmin
into an error reply sent back to the message destination. -/
def start_prosess (st : AppSettings) (plugins : PluginDict) (resp : GPTResponsePayload)
    (m : MessageState) (w : World) : Except PyError MessageState × World :=
  match process_incoming_text_message st m with
  | .error e => (.error e, w)
  | .ok m1 =>
    let stepped : Except PyError MessageState × World :=
      if pyTruthyArgs m1.arguments then
        match command_handle st plugins m1 w with
        | (.ok (m2, _), w2) => (.ok m2, w2)
        | (.error e, w2) => (.error e, w2)
      else message_handle st plugins resp m1 w
    match stepped with
    | (.error (PyError.commandNotFound msg), w3) =>
      let m3 := { m1 with outgoing_text_message := msg }
      (.ok m3, send_message m3 w3)
    | (.error (PyError.senderNotAdmin msg), w3) =>
      let m3 := { m1 with outgoing_text_message := msg }
      (.ok m3, send_message m3 w3)
    | other => other

/-- One whole request cycle: build the Message (identity resolution,
normalization, validation in the constructor) and run start_prosess on
it; a constructor exception aborts the cycle before tokenization. -/
def handle_event (st : AppSettings) (plugins : PluginDict) (debug : Bool)
    (resp : GPTResponsePayload) (data : InboundData) (w : World) :
    Except PyError MessageState × World :=
  match mk_message st debug data with
  | .error e => (.error e, w)
  | .ok m => start_prosess st plugins resp m w

/-- Stable insertion of a history row into a list sorted by date
descending: the row goes after every strictly newer row and before the
rest, so rows of equal date keep their original relative order. -/
def insertDesc (r : GPTRecord) : List GPTRecord → List GPTRecord
  | [] => [r]
  | x :: xs => if x.date > r.date then x :: insertDesc r xs else r :: x :: xs

/-- The Django order_by(-date) ordering: a stable sort of the rows by
date, newest first. -/
def orderByDateDesc (l : List GPTRecord) : List GPTRecord :=
  l.foldr insertDesc []

/-- The rows the history query yields: filter the table by the
conversation key, order newest first, take the first five. -/
def selectedRecords (db : List GPTRecord) (sender : String) (group : Option String) :
    List GPTRecord :=
  (orderByDateDesc (db.filter (fun r => r.group == group && r.sender == sender))).take 5

/-- API.get_previous_messages: for each selected row, in query order,
append a user turn with the stored inbound text and an assistant turn
with the stored response. Each chat turn is a (role, content) pair. -/
def get_previous_messages (db : List GPTRecord) (sender : String) (group : Option String) :
    List (String × String) :=
  (selectedRecords db sender group).foldl
    (fun acc r => acc ++ [("user", r.message), ("assistant", r.response)]) []

/-- The chat turns of a record list written as a simple recursion, used
to state what get_previous_messages builds. -/
def contextPairs : List GPTRecord → List (String × String)
  | [] => []
  | r :: rs => ("user", r.message) :: ("assistant", r.response) :: contextPairs rs

/-- Whether a pipeline outcome is a raised CommandNotFound. -/
def raisesCommandNotFound {α : Type} : Except PyError α → Bool
  | .error (PyError.commandNotFound _) => true
  | _ => false

/-- A settings fixture: admin marker "admin", the single admin sender
"1", empty blacklist. -/
def stdSettings : AppSettings := ⟨"admin", ["1"], []⟩

/-- A direct-scope message fixture from the given short sender id with
the given incoming text, as the constructor would build it. -/
def directMessage (sender text : String) : MessageState :=
  { senderId := sender ++ "@s.whatsapp.net", groupId := none, sender := sender, group := none,
    command_prefix := "/", arguments := none, admin_privilege := false,
    incoming_text_message := text, outgoing_text_message := "",
    send_to := [sender ++ "@s.whatsapp.net"], media_type := none,
    media_mime_type := none, media_path := none }

/-- The world before a request cycle: nothing sent, nothing saved. -/
def emptyWorld : World := ⟨[], []⟩

/-- A find? over pairs ignores replacing the value stored under a key
different from the one searched. -/
theorem find_map_replace_ne (d : PluginDict) (k' : String) (v : PluginInfo) (k : String)
    (hk : k ≠ k') :
    (d.map (fun kv => if kv.1 == k' then (k', v) else kv)).find? (fun kv => kv.1 == k) =
      d.find? (fun kv => kv.1 == k) := by
  induction d with
  | nil => rfl
  | cons hd tl ih =>
    by_cases h1 : hd.1 = k'
    · have e1 : (hd.1 == k') = true := by simpa [beq_iff_eq] using h1
      have e2 : (k' == k) = false := by
        simp only [beq_eq_false_iff_ne, ne_eq]
        exact fun h => hk h.symm
      have e3 : (hd.1 == k) = false := by rw [h1]; exact e2
      simp only [List.map_cons, e1, if_true, List.find?_cons, e2, e3, ih]
    · have e1 : (hd.1 == k') = false := by simpa [beq_eq_false_iff_ne] using h1
      simp only [List.map_cons, e1, Bool.false_eq_true, if_false, List.find?_cons, ih]

/-- A find? for a key after replacing that key: yields the replacement
exactly when the key was present. -/
theorem find_map_replace_self (d : PluginDict) (k' : String) (v : PluginInfo) :
    (d.map (fun kv => if kv.1 == k' then (k', v) else kv)).find? (fun kv => kv.1 == k') =
      if d.any (fun kv => kv.1 == k') then some (k', v) else none := by
  induction d with
  | nil => rfl
  | cons hd tl ih =>
    by_cases h1 : hd.1 = k'
    · have e1 : (hd.1 == k') = true := by simpa [beq_iff_eq] using h1
      have e2 : (k' == k') = true := by simp
      simp only [List.map_cons, e1, if_true, List.find?_cons, e2, List.any_cons,
        Bool.true_or, if_true]
    · have e1 : (hd.1 == k') = false := by simpa [beq_eq_false_iff_ne] using h1
      simp only [List.map_cons, e1, Bool.false_eq_true, if_false, List.find?_cons,
        List.any_cons, Bool.false_or, ih]

/-- A find? distributes over list append. -/
theorem find_append_aux (l1 l2 : PluginDict) (p : String × PluginInfo → Bool) :
    (l1 ++ l2).find? p =
      match l1.find? p with
      | some x => some x
      | none => l2.find? p := by
  induction l1 with
  | nil => rfl
  | cons hd tl ih =>
    by_cases h : p hd = true
    · simp only [List.cons_append, List.find?_cons, h]
    · have h' : p hd = false := Bool.eq_false_iff.mpr h
      simp only [List.cons_append, List.find?_cons, h', ih]

/-- Looking a key up after a Python dict assignment: the assigned key
maps to the new value and every other key is untouched. -/
theorem lookup_dictInsert (d : PluginDict) (k' : String) (v : PluginInfo) (k : String) :
    lookupDict (dictInsert d k' v) k = if k = k' then some v else lookupDict d k := by
  unfold dictInsert lookupDict
  by_cases hany : d.any (fun kv => kv.1 == k') = true
  · rw [if_pos hany]
    by_cases hk : k = k'
    · subst hk
      rw [find_map_replace_self d k v, if_pos hany, if_pos rfl]
      rfl
    · rw [find_map_replace_ne d k' v k hk, if_neg hk]
  · rw [if_neg hany]
    rw [find_append_aux]
    have hany' : d.any (fun kv => kv.1 == k') = false := by
      cases h : d.any (fun kv => kv.1 == k') with
      | true => exact absurd h hany
      | false => rfl
    have hnone : d.find? (fun kv => kv.1 == k') = none := by
      rw [List.find?_eq_none]
      intro x hx
      simpa using List.any_eq_false.mp hany' x hx
    by_cases hk : k = k'
    · subst hk
      rw [hnone, if_pos rfl]
      simp [List.find?_cons, beq_iff_eq]
    · rw [if_neg hk]
      cases hfound : d.find? (fun kv => kv.1 == k) with
      | some x => rfl
      | none =>
        simp only [List.find?_cons]
        have : (k' == k) = false := by simp [beq_iff_eq]; exact fun h => hk h.symm
        simp [this]

/-- The registry fold resolves each key to the last module assigning it,
relative to a starting dict whose lookup is the starting accumulator. -/
theorem lookup_foldl_insert (ps : List PluginInfo) (k : String) :
    ∀ (d : PluginDict) (acc : Option PluginInfo), lookupDict d k = acc →
      lookupDict (ps.foldl (fun a p => dictInsert a p.command_name p) d) k =
        ps.foldl (fun a p => if p.command_name == k then some p else a) acc := by
  induction ps with
  | nil => intro d acc h; simpa using h
  | cons p tl ih =>
    intro d acc h
    simp only [List.foldl_cons]
    apply ih
    rw [lookup_dictInsert, h]
    by_cases hk : k = p.command_name
    · simp [beq_iff_eq, hk]
    · have : (p.command_name == k) = false := by simp [beq_iff_eq]; exact fun hh => hk hh.symm
      simp [hk, this]

/-- Pushing the user and assistant turns of each record with a left fold
appends the straightforwardly recursive turn list. -/
theorem foldl_pairs (l : List GPTRecord) :
    ∀ acc : List (String × String),
      l.foldl (fun acc r => acc ++ [("user", r.message), ("assistant", r.response)]) acc =
        acc ++ contextPairs l := by
  induction l with
  | nil => intro acc; simp [contextPairs]
  | cons r rs ih =>
    intro acc
    simp only [List.foldl_cons, contextPairs, ih, List.append_assoc]
    rfl

/-- Membership in an insertion result: the inserted row or an original
row. -/
theorem mem_insertDesc {x r : GPTRecord} {l : List GPTRecord} (h : x ∈ insertDesc r l) :
    x = r ∨ x ∈ l := by
  induction l with
  | nil => simpa [insertDesc] using h
  | cons y ys ih =>
    unfold insertDesc at h
    by_cases hc : y.date > r.date
    · rw [if_pos hc] at h
      rcases List.mem_cons.mp h with h1 | h1
      · exact Or.inr (List.mem_cons.mpr (Or.inl h1))
      · rcases ih h1 with h2 | h2
        · exact Or.inl h2
        · exact Or.inr (List.mem_cons.mpr (Or.inr h2))
    · rw [if_neg hc] at h
      rcases List.mem_cons.mp h with h1 | h1
      · exact Or.inl h1
      · exact Or.inr h1

/-- Insertion keeps the newest-first ordering. -/
theorem sorted_insertDesc {r : GPTRecord} {l : List GPTRecord}
    (h : l.Sorted (fun a b => b.date ≤ a.date)) :
    (insertDesc r l).Sorted (fun a b => b.date ≤ a.date) := by
  induction l with
  | nil => simp [insertDesc]
  | cons y ys ih =>
    rw [List.sorted_cons] at h
    unfold insertDesc
    by_cases hc : y.date > r.date
    · rw [if_pos hc]
      rw [List.sorted_cons]
      constructor
      · intro b hb
        rcases mem_insertDesc hb with h1 | h1
        · subst h1; exact Nat.le_of_lt hc
        · exact h.1 b h1
      · exact ih h.2
    · rw [if_neg hc]
      rw [List.sorted_cons]
      constructor
      · intro b hb
        rcases List.mem_cons.mp hb with h1 | h1
        · subst h1; exact Nat.le_of_not_lt hc
        · exact le_trans (h.1 b h1) (Nat.le_of_not_lt hc)
      · rw [List.sorted_cons]
        exact h

/-- The modelled order_by yields a newest-first list. -/
theorem sorted_orderByDateDesc (l : List GPTRecord) :
    (orderByDateDesc l).Sorted (fun a b => b.date ≤ a.date) := by
  induction l with
  | nil => simp [orderByDateDesc]
  | cons r rs ih => exact sorted_insertDesc ih

/-- Membership in the modelled order_by result comes from the table. -/
theorem mem_orderByDateDesc {x : GPTRecord} {l : List GPTRecord}
    (h : x ∈ orderByDateDesc l) : x ∈ l := by
  induction l with
  | nil => exact absurd h (by simp [orderByDateDesc])
  | cons r rs ih =>
    rcases mem_insertDesc h with h1 | h1
    · exact h1 ▸ List.mem_cons_self r rs
    · exact List.mem_cons.mpr (Or.inr (ih h1))

/-- C1 counterexample: the address "123 in 456" contains the separator
and its right side lacks the group suffix, yet the Identity Resolver
returns the right-hand side "456" as the sender, not the original full
string. -/
theorem C1_counterexample :
    get_group_and_sender_id "123 in 456" = .ok ("456", none) ∧
    get_group_and_sender_id "123 in 456" ≠ .ok ("123 in 456", none) := by decide

/-- C1 amended: for every raw address that splits on the separator into
exactly a left and a right part whose right part lacks the group suffix,
the Identity Resolver returns the right-hand side of the split as the
sender and no group. -/
theorem C1_right_side_becomes_sender (s a b : String)
    (h1 : splitIn s = [a, b]) (h2 : pyEndsWith b "@g.us" = false) :
    get_group_and_sender_id s = .ok (b, none) := by
  unfold get_group_and_sender_id
  rw [h1]
  simp [h2]

/-- C1 witness: the amended statement evaluated on the concrete address
"123 in 456". -/
theorem C1_witness :
    splitIn "123 in 456" = ["123", "456"] ∧ pyEndsWith "456" "@g.us" = false ∧
    get_group_and_sender_id "123 in 456" = .ok ("456", none) :=
  ⟨by decide, by decide,
    C1_right_side_becomes_sender "123 in 456" "123" "456" (by decide) (by decide)⟩

/-- C3 counterexample: loading two modules that declare the same command
name and the same privilege tier succeeds and silently overwrites the
first entry, and the same name under two different tiers also yields a
single registry entry, not two. -/
theorem C3_counterexample :
    load_plugins [⟨"settings", false, "one", false⟩, ⟨"settings", false, "two", false⟩] =
      [("settings", ⟨"settings", false, "two", false⟩)] ∧
    load_plugins [⟨"settings", false, "one", false⟩, ⟨"settings", true, "two", false⟩] =
      [("settings", ⟨"settings", true, "two", false⟩)] := by decide

/-- C3 amended: the registry is keyed by command name alone; loading
never fails on a collision and each name resolves to the last module in
load order that declared it, whatever the privilege tiers involved, so a
name reused across tiers still yields one entry. -/
theorem C3_registry_last_declaration_wins (modules : List PluginInfo) (k : String) :
    lookupDict (load_plugins modules) k = lastWith modules k := by
  unfold load_plugins lastWith
  exact lookup_foldl_insert modules k [] none rfl


/-- Every word the whitespace splitter emits, starting from a current
word free of whitespace, is non-empty and free of whitespace. -/
theorem pySplitGo_tokens (l : List Char) :
    ∀ cur : List Char, (∀ c ∈ cur, isPyWS c = false) →
      ∀ w ∈ pySplitGo cur l, w ≠ [] ∧ ∀ c ∈ w, isPyWS c = false := by
  induction l with
  | nil =>
    intro cur hcur w hw
    unfold pySplitGo at hw
    by_cases hc : cur = []
    · rw [if_pos hc] at hw
      exact absurd hw (List.not_mem_nil w)
    · rw [if_neg hc] at hw
      rcases List.mem_singleton.mp hw with rfl
      refine ⟨by simpa using hc, fun c hcmem => hcur c (by simpa using hcmem)⟩
  | cons a rest ih =>
    intro cur hcur w hw
    unfold pySplitGo at hw
    by_cases ha : isPyWS a = true
    · rw [if_pos ha] at hw
      by_cases hc : cur = []
      · rw [if_pos hc] at hw
        exact ih [] (by simp) w hw
      · rw [if_neg hc] at hw
        rcases List.mem_cons.mp hw with rfl | hw2
        · refine ⟨by simpa using hc, fun c hcmem => hcur c (by simpa using hcmem)⟩
        · exact ih [] (by simp) w hw2
    · have ha' : isPyWS a = false := Bool.eq_false_iff.mpr ha
      rw [if_neg ha] at hw
      refine ih (a :: cur) ?_ w hw
      intro c hc
      rcases List.mem_cons.mp hc with rfl | h
      · exact ha'
      · exact hcur c h

/-- Every token of a Python whitespace split is non-empty and contains
no whitespace character. -/
theorem pySplit_tokens (s : String) :
    ∀ t ∈ pySplit s, t ≠ "" ∧ ∀ c ∈ t.toList, isPyWS c = false := by
  intro t ht
  unfold pySplit at ht
  rcases List.mem_map.mp ht with ⟨w, hw, rfl⟩
  have h := pySplitGo_tokens s.toList [] (by simp) w hw
  refine ⟨?_, ?_⟩
  · intro hctr
    exact h.1 (by simpa using congrArg String.toList hctr)
  · intro c hc
    exact h.2 c (by simpa using hc)

/-- What a successful tokenization does to an initially absent
arguments field: it stays absent (the free-form chat path) or becomes a
non-empty list of non-empty whitespace-free tokens. -/
theorem tokenizer_args_shape (st : AppSettings) (m m' : MessageState)
    (hok : process_incoming_text_message st m = .ok m') (hnone : m.arguments = none) :
    m'.arguments = none ∨
      ∃ l, m'.arguments = some l ∧ l ≠ [] ∧
        ∀ t ∈ l, t ≠ "" ∧ ∀ c ∈ t.toList, isPyWS c = false := by
  unfold process_incoming_text_message at hok
  split at hok
  · split at hok
    · rw [pure_bind] at hok
      dsimp only at hok
      split at hok
      · split at hok
        next heq => exact Except.noConfusion hok
        next a0 rest heq =>
          split at hok
          · have hinj : _ = m' := Except.ok.inj hok
            subst hinj
            by_cases hrest : rest = []
            · subst hrest
              refine Or.inr ⟨["help"], by simp, by simp, ?_⟩
              intro t ht
              rcases List.mem_singleton.mp ht with rfl
              exact ⟨by decide, by decide⟩
            · refine Or.inr ⟨rest, by simp [hrest], hrest, ?_⟩
              intro t ht
              exact pySplit_tokens _ t (heq ▸ List.mem_cons_of_mem a0 ht)
          · have hinj : _ = m' := Except.ok.inj hok
            subst hinj
            refine Or.inr ⟨a0 :: rest, by dsimp only; rw [heq], by simp, ?_⟩
            intro t ht
            exact pySplit_tokens _ t (heq ▸ ht)
      · have hinj : _ = m' := Except.ok.inj hok
        subst hinj
        exact Or.inl hnone
    · exact Except.noConfusion hok
  · rw [pure_bind] at hok
    dsimp only at hok
    split at hok
    · split at hok
      next heq => exact Except.noConfusion hok
      next a0 rest heq =>
        split at hok
        · have hinj : _ = m' := Except.ok.inj hok
          subst hinj
          by_cases hrest : rest = []
          · subst hrest
            refine Or.inr ⟨["help"], by simp, by simp, ?_⟩
            intro t ht
            rcases List.mem_singleton.mp ht with rfl
            exact ⟨by decide, by decide⟩
          · refine Or.inr ⟨rest, by simp [hrest], hrest, ?_⟩
            intro t ht
            exact pySplit_tokens _ t (heq ▸ List.mem_cons_of_mem a0 ht)
        · have hinj : _ = m' := Except.ok.inj hok
          subst hinj
          refine Or.inr ⟨a0 :: rest, by dsimp only; rw [heq], by simp, ?_⟩
          intro t ht
          exact pySplit_tokens _ t (heq ▸ ht)
    · have hinj : _ = m' := Except.ok.inj hok
      subst hinj
      exact Or.inl hnone

/-- The admin-tier demo plugin used by the dispatch fixtures. -/
def fooAdminPlugin : PluginInfo := ⟨"foo", true, "demo", false⟩

/-- A standard-tier message already tokenized to the single token foo. -/
def mC2 : MessageState :=
  { directMessage "2" "foo" with arguments := some ["foo"] }

/-- C2 counterexample: the token foo names a registered admin-tier
plugin while the message is standard tier; the dispatcher returns the
silent fall-through outcome, invoking nothing and raising no
CommandNotFound. -/
theorem C2_counterexample :
    (command_handle stdSettings [("foo", fooAdminPlugin)] mC2 emptyWorld).1 =
      .ok (mC2, DispatchResult.noOp) ∧
    raisesCommandNotFound
      (command_handle stdSettings [("foo", fooAdminPlugin)] mC2 emptyWorld).1 = false ∧
    (command_handle stdSettings [("foo", fooAdminPlugin)] mC2 emptyWorld).2 = emptyWorld := by
  decide

/-- C2 amended: when the first token names a registered command whose
privilege tier differs from the message tier (and the token is neither
the unescalated admin marker nor a help form), the dispatcher does not
invoke the handler and completes silently with no error and no effect on
the world; it does not raise CommandNotFound. -/
theorem C2_tier_mismatch_silent_noop (st : AppSettings) (plugins : PluginDict)
    (m : MessageState) (w : World) (a0 : String) (rest : List String) (p : PluginInfo)
    (hargs : m.arguments = some (a0 :: rest))
    (hgate : a0 = AppSettings.admin_command_prefix st → m.admin_privilege = true)
    (hne : a0 :: rest ≠ [""]) (hnh : a0 ≠ "help")
    (hfind : lookupDict plugins a0 = some p)
    (htier : p.admin_privilege ≠ m.admin_privilege) :
    command_handle st plugins m w = (.ok (m, DispatchResult.noOp), w) := by
  unfold command_handle
  rw [hargs]
  dsimp only
  rw [if_neg (fun hc => absurd (hc.2.symm.trans (hgate hc.1)) (by decide))]
  rw [if_neg (fun hc => hc.elim hne hnh)]
  rw [hfind]
  dsimp only
  rw [if_neg htier]

/-- C2 witness: the amended statement evaluated on the concrete
admin-tier plugin foo and a standard-tier message naming it. -/
theorem C2_witness :
    command_handle stdSettings [("foo", fooAdminPlugin)] mC2 emptyWorld =
      (.ok (mC2, DispatchResult.noOp), emptyWorld) :=
  C2_tier_mismatch_silent_noop stdSettings [("foo", fooAdminPlugin)] mC2 emptyWorld
    "foo" [] fooAdminPlugin (by decide) (by decide) (by decide) (by decide)
    (by decide) (by decide)

/-- C6 confirmed: with the configured admin marker "admin", tokenizing
the direct-scope text "/admin settings -g all" from an admin sender
escalates to the admin tier and strips the marker token, while the same
text from a non-admin sender stays standard tier with the literal token
kept, and dispatching that unescalated token list raises SenderNotAdmin
whatever the registry holds. -/
theorem C6_admin_marker_escalation (st : AppSettings) (m1 m2 : MessageState)
    (hpre : AppSettings.admin_command_prefix st = "admin")
    (hg1 : m1.group = none) (ht1 : m1.incoming_text_message = "/admin settings -g all")
    (hadm : m1.sender ∈ st.admin_ids)
    (hg2 : m2.group = none) (ht2 : m2.incoming_text_message = "/admin settings -g all")
    (hnadm : m2.sender ∉ st.admin_ids) (hap2 : m2.admin_privilege = false) :
    process_incoming_text_message st m1 =
      .ok { m1 with incoming_text_message := "admin settings -g all",
                    arguments := some ["settings", "-g", "all"], admin_privilege := true } ∧
    process_incoming_text_message st m2 =
      .ok { m2 with incoming_text_message := "admin settings -g all",
                    arguments := some ["admin", "settings", "-g", "all"] } ∧
    ∀ (plugins : PluginDict) (w : World),
      command_handle st plugins
          { m2 with incoming_text_message := "admin settings -g all",
                    arguments := some ["admin", "settings", "-g", "all"] } w =
        (.error (PyError.senderNotAdmin "You are not an admin and cannot use admin commands."), w) := by
  refine ⟨?_, ?_, ?_⟩
  · unfold process_incoming_text_message
    rw [hg1]
    simp only [optTruthy, Bool.false_eq_true, if_false, pure_bind]
    rw [ht1]
    rw [if_pos (by decide : pyStartsWith "/admin settings -g all" "/" = true)]
    rw [show pySplit (pyStrip (String.mk ("/admin settings -g all".toList.drop 1))) =
        ["admin", "settings", "-g", "all"] from by decide]
    rw [show pyStrip (String.mk ("/admin settings -g all".toList.drop 1)) =
        "admin settings -g all" from by decide]
    dsimp only
    rw [hpre]
    rw [if_pos ⟨rfl, hadm⟩]
    simp [hg1]
    rfl
  · unfold process_incoming_text_message
    rw [hg2]
    simp only [optTruthy, Bool.false_eq_true, if_false, pure_bind]
    rw [ht2]
    rw [if_pos (by decide : pyStartsWith "/admin settings -g all" "/" = true)]
    rw [show pySplit (pyStrip (String.mk ("/admin settings -g all".toList.drop 1))) =
        ["admin", "settings", "-g", "all"] from by decide]
    rw [show pyStrip (String.mk ("/admin settings -g all".toList.drop 1)) =
        "admin settings -g all" from by decide]
    dsimp only
    rw [hpre]
    rw [if_neg (fun hc => hnadm hc.2)]
    simp [hg2]
    rfl
  · intro plugins w
    unfold command_handle
    dsimp only
    rw [hpre]
    rw [if_pos ⟨rfl, hap2⟩]

/-- C6 witness: the theorem evaluated with the fixture settings, the
admin sender 1, and the non-admin sender 2. -/
theorem C6_witness :
    process_incoming_text_message stdSettings (directMessage "1" "/admin settings -g all") =
      .ok { directMessage "1" "/admin settings -g all" with
              incoming_text_message := "admin settings -g all",
              arguments := some ["settings", "-g", "all"], admin_privilege := true } ∧
    process_incoming_text_message stdSettings (directMessage "2" "/admin settings -g all") =
      .ok { directMessage "2" "/admin settings -g all" with
              incoming_text_message := "admin settings -g all",
              arguments := some ["admin", "settings", "-g", "all"] } ∧
    ∀ (plugins : PluginDict) (w : World),
      command_handle stdSettings plugins
          { directMessage "2" "/admin settings -g all" with
              incoming_text_message := "admin settings -g all",
              arguments := some ["admin", "settings", "-g", "all"] } w =
        (.error (PyError.senderNotAdmin "You are not an admin and cannot use admin commands."), w) :=
  C6_admin_marker_escalation stdSettings
    (directMessage "1" "/admin settings -g all") (directMessage "2" "/admin settings -g all")
    (by decide) (by decide) (by decide) (by decide) (by decide) (by decide) (by decide) (by decide)

/-- C4 counterexample: with two history rows for the key, the context
passed to the model lists the newer pair before the older one, not in
chronological oldest-first order as claimed. -/
theorem C4_counterexample :
    get_previous_messages [⟨"m0", "r0", none, "s", 0⟩, ⟨"m1", "r1", none, "s", 1⟩] "s" none =
      [("user", "m1"), ("assistant", "r1"), ("user", "m0"), ("assistant", "r0")] ∧
    get_previous_messages [⟨"m0", "r0", none, "s", 0⟩, ⟨"m1", "r1", none, "s", 1⟩] "s" none ≠
      [("user", "m0"), ("assistant", "r0"), ("user", "m1"), ("assistant", "r1")] := by decide

/-- C4 amended: the conversation context consists of the turns of at
most the 5 most recent rows for the (sender, group) key, every selected
row belongs to that key, and the pairs are arranged most-recent-first
(each pair as the inbound user turn then the outbound assistant turn),
not oldest-first. -/
theorem C4_context_recent_five_newest_first (db : List GPTRecord) (sender : String)
    (group : Option String) :
    get_previous_messages db sender group = contextPairs (selectedRecords db sender group) ∧
    (selectedRecords db sender group).length ≤ 5 ∧
    (selectedRecords db sender group).Sorted (fun a b => b.date ≤ a.date) ∧
    ∀ r ∈ selectedRecords db sender group, r.sender = sender ∧ r.group = group := by
  refine ⟨?_, ?_, ?_, ?_⟩
  · unfold get_previous_messages
    rw [foldl_pairs]
    rfl
  · unfold selectedRecords
    exact List.length_take_le 5 _
  · unfold selectedRecords
    exact (sorted_orderByDateDesc _).sublist (List.take_sublist 5 _)
  · intro r hr
    unfold selectedRecords at hr
    have h1 : r ∈ orderByDateDesc (db.filter (fun r => r.group == group && r.sender == sender)) :=
      List.mem_of_mem_take hr
    have h2 := mem_orderByDateDesc h1
    have h3 := List.of_mem_filter h2
    have h4 := Bool.and_elim_left h3
    have h5 := Bool.and_elim_right h3
    exact ⟨by simpa [beq_iff_eq] using h5, by simpa [beq_iff_eq] using h4⟩

/-- C7 counterexample: the direct text with a quoted span containing a
space tokenizes into three tokens with the quote characters kept, not
into a single quoted element: quoting is not interpreted. -/
theorem C7_counterexample :
    process_incoming_text_message stdSettings (directMessage "2" "/foo \"a b\"") =
      .ok { directMessage "2" "/foo \"a b\"" with
              incoming_text_message := "foo \"a b\"",
              arguments := some ["foo", "\"a", "b\""] } ∧
    (some ["foo", "\"a", "b\""] : Option (List String)) ≠ some ["foo", "a b"] := by decide

/-- C7 amended: the tokenizer strips the marker and splits the remainder
on whitespace without interpreting quotes: every produced token is
non-empty and contains no whitespace character, so a quoted span
containing spaces is broken into several tokens rather than kept as one
element. -/
theorem C7_tokens_whitespace_free (st : AppSettings) (m m' : MessageState) (l : List String)
    (hok : process_incoming_text_message st m = .ok m')
    (hnone : m.arguments = none) (hsome : m'.arguments = some l) :
    ∀ t ∈ l, t ≠ "" ∧ ∀ c ∈ t.toList, isPyWS c = false := by
  rcases tokenizer_args_shape st m m' hok hnone with h | ⟨l2, hl2, _, htok⟩
  · rw [h] at hsome
    exact absurd hsome (by simp)
  · rw [hl2] at hsome
    rcases Option.some.inj hsome with rfl
    exact htok

/-- C7 witness: the amended statement applied to the quoted-span input,
at its middle token, which carries the opening quote character. -/
theorem C7_witness :
    "\"a" ≠ "" ∧ ∀ c ∈ String.toList "\"a", isPyWS c = false :=
  C7_tokens_whitespace_free stdSettings (directMessage "2" "/foo \"a b\"")
    { directMessage "2" "/foo \"a b\"" with
        incoming_text_message := "foo \"a b\"", arguments := some ["foo", "\"a", "b\""] }
    ["foo", "\"a", "b\""] (by decide) (by decide) (by decide)
    "\"a" (by decide)

/-- A non-empty list has a last element. -/
theorem getLast_exists_of_ne_nil {α : Type} (l : List α) (h : l ≠ []) :
    ∃ x, l.getLast? = some x := by
  induction l with
  | nil => exact absurd rfl h
  | cons a t ih =>
    cases t with
    | nil => exact ⟨a, rfl⟩
    | cons b t2 =>
      obtain ⟨x, hx⟩ := ih (by simp)
      exact ⟨x, by rw [List.getLast?_cons_cons]; exact hx⟩

/-- With a non-empty registry the compact catalog renders without the
NameError of the empty-loop quirk. -/
theorem get_help_ok (st : AppSettings) (plugins : PluginDict) (m : MessageState)
    (hplug : plugins ≠ []) : ∃ h, get_help st plugins m = .ok h := by
  obtain ⟨p, hp⟩ := getLast_exists_of_ne_nil (plugins.map Prod.snd) (by simpa using hplug)
  unfold get_help
  dsimp only
  rw [hp]
  exact ⟨_, rfl⟩

/-- C8: after a successful tokenization of a message whose arguments
field was absent, the field is never the present-but-empty list; and a
dispatch over the all-empty-string token list is routed through the
truthy-arguments command branch into the help catalog (for any non-empty
registry, with an admin marker that is not itself the empty token unless
privilege was escalated), not into the free-form-chat path. -/
theorem C8_args_nonempty_and_empty_token_is_help
    (st st2 : AppSettings) (m m' m2 : MessageState) (plugins : PluginDict) (w : World)
    (hok : process_incoming_text_message st m = .ok m') (hnone : m.arguments = none)
    (hargs2 : m2.arguments = some [""])
    (hgate2 : AppSettings.admin_command_prefix st2 = "" → m2.admin_privilege = true)
    (hplug : plugins ≠ []) :
    m'.arguments ≠ some [] ∧
    pyTruthyArgs m2.arguments = true ∧
    ∃ h, command_handle st2 plugins m2 w =
      (.ok ({ m2 with outgoing_text_message := h }, DispatchResult.sentHelp),
        send_message { m2 with outgoing_text_message := h } w) := by
  refine ⟨?_, ?_, ?_⟩
  · rcases tokenizer_args_shape st m m' hok hnone with h | ⟨l, hl, hne, _⟩
    · rw [h]
      simp
    · rw [hl]
      simp [hne]
  · rw [hargs2]
    rfl
  · obtain ⟨h, hget⟩ := get_help_ok st2 plugins m2 hplug
    refine ⟨h, ?_⟩
    unfold command_handle
    rw [hargs2]
    dsimp only
    rw [if_neg (fun hc => absurd (hc.2.symm.trans (hgate2 hc.1.symm)) (by decide))]
    rw [if_pos (Or.inl rfl)]
    rw [hget]

/-- The all-empty-string token list fixture for the help routing. -/
def mEmptyTok : MessageState :=
  { directMessage "2" "x" with arguments := some [""] }

/-- The tokenized form of the direct command /hello from sender 2. -/
def mHelloTok : MessageState :=
  { directMessage "2" "/hello" with
      incoming_text_message := "hello", arguments := some ["hello"] }

/-- C8 witness: the statement applied to the tokenization of a plain
direct command and to an all-empty-token dispatch over the demo
registry. -/
theorem C8_witness :
    mHelloTok.arguments ≠ some [] ∧
    pyTruthyArgs mEmptyTok.arguments = true ∧
    ∃ h, command_handle stdSettings [("foo", fooAdminPlugin)] mEmptyTok emptyWorld =
      (.ok ({ mEmptyTok with outgoing_text_message := h }, DispatchResult.sentHelp),
        send_message { mEmptyTok with outgoing_text_message := h } emptyWorld) :=
  C8_args_nonempty_and_empty_token_is_help stdSettings stdSettings
    (directMessage "2" "/hello") mHelloTok mEmptyTok
    [("foo", fooAdminPlugin)] emptyWorld
    (by decide) (by decide) (by decide) (by decide) (by decide)

/-- Dispatch never touches the persisted history, only the send list. -/
theorem command_handle_saved (st : AppSettings) (plugins : PluginDict) (m : MessageState)
    (w : World) : ((command_handle st plugins m w).2).saved = w.saved := by
  unfold command_handle
  split
  · rfl
  · rfl
  · split
    · rfl
    · split
      · split
        · rfl
        · simp [send_message]
      · split
        · split
          · rfl
          · rfl
        · rfl

/-- C5 amended (ok direction): when the resolver cycle completes
without an exception, exactly one history tuple is appended, carrying
the final inbound text, the full response payload, what was sent as the
system field, and the conversation key; (error direction): when the
cycle raises, in particular when a console re-dispatch fails, nothing is
persisted. -/
theorem C5_saved_on_completion (st : AppSettings) (plugins : PluginDict)
    (resp : GPTResponsePayload) (m : MessageState) (w : World) :
    (∀ m' w', message_handle st plugins resp m w = (.ok m', w') →
      w'.saved = w.saved ++
        [{ message := m'.incoming_text_message, console := resp.console, chat := resp.chat,
           system := m'.outgoing_text_message, group := m'.group, sender := m'.sender }]) ∧
    (∀ e w', message_handle st plugins resp m w = (.error e, w') → w'.saved = w.saved) := by
  constructor
  · intro m' w' h
    unfold message_handle at h
    dsimp only at h
    split at h
    · exact Except.noConfusion (Prod.mk.inj h).1
    · next m4 w4 heq =>
      have hw : w4.saved = w.saved := by
        split at heq
        · split at heq
          · exact Except.noConfusion heq
          · next m2 heqp =>
            split at heq
            · exact Except.noConfusion heq
            · next m3 r w2 heq2 =>
              have h5 := Except.ok.inj heq
              have h6 := command_handle_saved st plugins m2 w
              rw [heq2] at h6
              rw [← (Prod.mk.inj h5).2]
              exact h6
        · have h5 := Except.ok.inj heq
          rw [← (Prod.mk.inj h5).2]
      rcases Prod.mk.inj h with ⟨h1, h2⟩
      have h3 := Except.ok.inj h1
      rw [← h2, ← h3]
      simp only [save_response]
      split
      · simp [send_message, hw]
      · simp [hw]
  · intro e w' h
    unfold message_handle at h
    dsimp only at h
    split at h
    · rw [← (Prod.mk.inj h).2]
    · exact Except.noConfusion (Prod.mk.inj h).1

/-- The resolver response fixture whose console directive names an
unregistered command. -/
def respBad : GPTResponsePayload := ⟨some "zzz", some "hi"⟩

/-- C5 counterexample: a resolver cycle whose console directive fails
its re-dispatch with CommandNotFound persists nothing at all: the
persistence is not unconditional. -/
theorem C5_counterexample :
    raisesCommandNotFound
      (message_handle stdSettings [] respBad (directMessage "2" "hey") emptyWorld).1 = true ∧
    ((message_handle stdSettings [] respBad (directMessage "2" "hey") emptyWorld).2).saved = [] ∧
    ((message_handle stdSettings [] respBad (directMessage "2" "hey") emptyWorld).2).sends = [] := by
  decide

/-- The resolver response fixture with only a chat reply. -/
def respChatOnly : GPTResponsePayload := ⟨none, some "hi"⟩

/-- The message state after the chat-only resolver cycle. -/
def mC5ok : MessageState :=
  { directMessage "2" "hey" with
      incoming_text_message := "hey", outgoing_text_message := "hi" }

/-- The world after the chat-only resolver cycle: one send, one row. -/
def wC5ok : World :=
  ⟨[("2@s.whatsapp.net", "hi")], [⟨"hey", none, some "hi", "hi", none, "2"⟩]⟩

/-- C5 witness: the amended statement applied to a chat-only cycle that
completes, appending exactly its one history tuple. -/
theorem C5_witness :
    message_handle stdSettings [] respChatOnly (directMessage "2" "hey") emptyWorld =
      (.ok mC5ok, wC5ok) ∧
    wC5ok.saved = emptyWorld.saved ++
      [{ message := mC5ok.incoming_text_message, console := none, chat := some "hi",
         system := mC5ok.outgoing_text_message, group := mC5ok.group, sender := mC5ok.sender }] :=
  ⟨by decide,
    (C5_saved_on_completion stdSettings [] respChatOnly (directMessage "2" "hey") emptyWorld).1
      mC5ok wC5ok (by decide)⟩

/-- A parse that yields a group implies the group id carries the
platform group suffix. -/
theorem parse_group_suffix (s a g : String)
    (h : get_group_and_sender_id s = .ok (a, some g)) : pyEndsWith g "@g.us" = true := by
  unfold get_group_and_sender_id at h
  split at h
  · exact Option.noConfusion (Prod.mk.inj (Except.ok.inj h)).2
  · split at h
    · next hends =>
      rcases Prod.mk.inj (Except.ok.inj h) with ⟨h1, h2⟩
      rcases Option.some.inj h2 with rfl
      exact hends
    · exact Option.noConfusion (Prod.mk.inj (Except.ok.inj h)).2
  · exact Except.noConfusion h

/-- The derived short id of a non-empty id is non-empty. -/
theorem shortId_ne_empty (s : String) (h : s ≠ "") : shortId s ≠ "" := by
  unfold shortId
  dsimp only
  split
  · next hcond =>
    intro hc
    exact hcond.1 (by simpa using congrArg String.toList hc)
  · exact h

/-- A string carrying the group suffix is non-empty. -/
theorem pyEndsWith_gus_ne_empty (g : String) (h : pyEndsWith g "@g.us" = true) : g ≠ "" := by
  intro hc
  subst hc
  exact absurd h (by decide)

/-- The first validator check: empty text in a truthy group. -/
theorem validate_empty_group (st : AppSettings) (debug : Bool) (m : MessageState)
    (h1 : m.incoming_text_message = "") (h2 : optTruthy m.group = true) :
    validate st debug m = .error (PyError.emptyMessageInGroup "Message is empty in group.") := by
  unfold validate
  rw [if_pos ⟨h1, h2⟩]

/-- C9: a Group-scope inbound event whose extracted text is empty is
rejected by the constructor-stage Validator with EmptyMessageInGroup,
and the whole request cycle aborts with that error leaving the world
untouched: start_prosess, and with it the tokenizer, never runs on such
a message. -/
theorem C9_empty_group_rejected_before_tokenization (st : AppSettings) (plugins : PluginDict) (debug : Bool)
    (resp : GPTResponsePayload) (data : InboundData) (w : World) (sid gid : String)
    (hids : get_group_and_sender_id data.from_ = .ok (sid, some gid))
    (himg : data.image = none) (hvid : data.video = none) (haud : data.audio = none)
    (hfil : data.file = none) (hstk : data.sticker = none)
    (htext : data.text = none ∨ data.text = some "") :
    mk_message st debug data = .error (PyError.emptyMessageInGroup "Message is empty in group.") ∧
    handle_event st plugins debug resp data w =
      (.error (PyError.emptyMessageInGroup "Message is empty in group."), w) := by
  have hset : set_incoming_text_message data = ("", none) := by
    rcases htext with h | h <;>
      simp [set_incoming_text_message, himg, hvid, haud, hfil, hstk, h]
  have hgr : optTruthy (some (shortId gid)) = true := by
    simp only [optTruthy, decide_eq_true_eq]
    exact shortId_ne_empty gid (pyEndsWith_gus_ne_empty gid (parse_group_suffix _ _ _ hids))
  have hmk : mk_message st debug data =
      .error (PyError.emptyMessageInGroup "Message is empty in group.") := by
    unfold mk_message
    rw [hids]
    dsimp only
    rw [hset]
    dsimp only
    rw [validate_empty_group st debug _ rfl (by dsimp only; exact hgr)]
  exact ⟨hmk, by unfold handle_event; rw [hmk]⟩

/-- C10: every successfully constructed Message carries exactly one
outbound destination, the raw group id in Group scope and the raw sender
id in Direct scope, and a single send issues exactly one request
addressed there. -/
theorem C10_single_destination_send (st : AppSettings) (debug : Bool) (data : InboundData)
    (m : MessageState) (w : World) (hok : mk_message st debug data = .ok m) :
    m.send_to = [match m.groupId with | some g => g | none => m.senderId] ∧
    m.send_to.length = 1 ∧
    (send_message m w).sends = w.sends ++
      [((match m.groupId with | some g => g | none => m.senderId), pyStrip m.outgoing_text_message)] := by
  have hsend : m.send_to = [match m.groupId with | some g => g | none => m.senderId] := by
    unfold mk_message at hok
    split at hok
    · exact Except.noConfusion hok
    · next ids heq =>
      dsimp only at hok
      split at hok
      · exact Except.noConfusion hok
      · split at hok
        · next mt hmt =>
          have h3 := Except.ok.inj hok
          subst h3
          unfold set_media
          split
          · rcases ids with ⟨sid, gid⟩
            cases gid <;> rfl
          · rcases ids with ⟨sid, gid⟩
            cases gid <;> rfl
        · have h3 := Except.ok.inj hok
          subst h3
          rcases ids with ⟨sid, gid⟩
          cases gid <;> rfl
  refine ⟨hsend, by rw [hsend]; rfl, ?_⟩
  unfold send_message
  rw [hsend]
  rfl


/-- The empty-text group-scope inbound event fixture. -/
def dataC9 : InboundData :=
  ⟨"123@c.us in 456@g.us", none, none, none, none, none, none⟩

/-- C9 witness: the statement applied to a concrete empty group event. -/
theorem C9_witness :
    get_group_and_sender_id dataC9.from_ = .ok ("123@c.us", some "456@g.us") ∧
    mk_message stdSettings false dataC9 =
      .error (PyError.emptyMessageInGroup "Message is empty in group.") ∧
    handle_event stdSettings [] false ⟨none, none⟩ dataC9 emptyWorld =
      (.error (PyError.emptyMessageInGroup "Message is empty in group."), emptyWorld) :=
  ⟨by decide,
    (C9_empty_group_rejected_before_tokenization stdSettings [] false ⟨none, none⟩ dataC9
      emptyWorld "123@c.us" "456@g.us" (by decide) rfl rfl rfl rfl rfl (Or.inl rfl)).1,
    (C9_empty_group_rejected_before_tokenization stdSettings [] false ⟨none, none⟩ dataC9
      emptyWorld "123@c.us" "456@g.us" (by decide) rfl rfl rfl rfl rfl (Or.inl rfl)).2⟩

/-- A group-scope inbound event carrying the text hi. -/
def dataC10 : InboundData :=
  ⟨"123@c.us in 456@g.us", some "hi", none, none, none, none, none⟩

/-- The Message the constructor builds for dataC10. -/
def mC10 : MessageState :=
  { senderId := "123@c.us", groupId := some "456@g.us", sender := "123", group := some "456",
    command_prefix := "./", arguments := none, admin_privilege := false,
    incoming_text_message := "hi", outgoing_text_message := "",
    send_to := ["456@g.us"], media_type := none, media_mime_type := none, media_path := none }

/-- C10 witness: the statement applied to a concrete group message. -/
theorem C10_witness :
    mC10.send_to = [match mC10.groupId with | some g => g | none => mC10.senderId] ∧
    mC10.send_to.length = 1 ∧
    (send_message mC10 emptyWorld).sends = emptyWorld.sends ++
      [((match mC10.groupId with | some g => g | none => mC10.senderId),
        pyStrip mC10.outgoing_text_message)] :=
  C10_single_destination_send stdSettings false dataC10 mC10 emptyWorld (by decide)
